import Mathlib

/-!
Shallow embedding of src/src/terminal/et_ios_bridge.cpp
(function et_client_main) and verification of its specification.

The bridge drives one terminal session: a bounded-retry handshake
(lines 49-103), then a select-based main loop (lines 118-223) that
forwards local input, drains inbound packets, runs a keepalive state
machine and reports terminal-geometry changes, and finally invokes
shutdown on loop exit (line 225).

External collaborators (ClientConnection, the OS) are modelled as
oracles: each handshake attempt and each loop tick carries the data the
collaborators would have supplied at that point (readiness flags, read
results, inbound packets, exceptions).  Effects on collaborators are
recorded as an explicit list of actions.
-/

/-- Geometry 4-tuple: rows, columns, pixel width, pixel height.
Mirrors the TerminalInfo protobuf used at lines 110 and 204-217; a
default-constructed value has all fields zero (proto3 default). -/
structure TerminalInfo where
  row : Nat
  column : Nat
  width : Nat
  height : Nat
deriving DecidableEq

/-- Header of a packet read during the handshake (line 77): either the
expected EtPacketType::INITIAL_RESPONSE or some other kind. -/
inductive EtPacketHeader where
  | initialResponse
  | other (n : Nat)
deriving DecidableEq

/-- What one iteration of the inner poll loop (lines 63-90) observes:
the socket descriptor is invalid (line 66), select reports no
readiness (line 74), readPacket returns false (line 76), a packet is
decoded (lines 77-87), or an exception escapes this iteration. -/
inductive PollStep where
  | fdInvalid
  | notReady
  | readFail
  | packet (hdr : EtPacketHeader) (hasError : Bool)
  | exn
deriving DecidableEq

/-- Outcome of the inner poll loop of one attempt. -/
inductive PollResult where
  | gotResponse
  | fatal
  | expired
deriving DecidableEq

/-- Oracle for one outer connection attempt (lines 51-98): connect()
throws, connect() returns false, or connect() succeeds and the poll
loop observes the given steps (at most 3 are consumed, mirroring
for (a = 0; a < 3; a++)). -/
inductive AttemptSpec where
  | connectExn
  | connectFail
  | connected (polls : List PollStep)
deriving DecidableEq

/-- Result of one outer attempt: fail stayed false, fail stayed true,
or a return-1 path was taken inside the attempt. -/
inductive AttemptResult where
  | ok
  | failed
  | fatal
deriving DecidableEq

/-- Result of the whole handshake loop (lines 50-103). -/
inductive HandshakeOutcome where
  | session
  | exitOne
deriving DecidableEq

/-- Inner poll loop, lines 63-90.  An invalid descriptor, an empty
select, or a failed readPacket consume the iteration and continue; a
decoded packet of the wrong kind (line 79) or with an embedded error
(line 84) returns 1; a valid response clears fail and breaks; an
exception propagates to the catch at line 99. -/
def pollLoop : List PollStep → PollResult
  | [] => PollResult.expired
  | PollStep.fdInvalid :: rest => pollLoop rest
  | PollStep.notReady :: rest => pollLoop rest
  | PollStep.readFail :: rest => pollLoop rest
  | PollStep.exn :: _ => PollResult.fatal
  | PollStep.packet hdr hasErr :: _ =>
    if hdr ≠ EtPacketHeader.initialResponse then PollResult.fatal
    else if hasErr then PollResult.fatal
    else PollResult.gotResponse

/-- One outer attempt, lines 51-101: the poll loop runs at most 3
iterations; exhausting them (or connect() returning false) leaves
fail = true; exceptions are fatal via the catch at line 99. -/
def runAttempt : AttemptSpec → AttemptResult
  | AttemptSpec.connectExn => AttemptResult.fatal
  | AttemptSpec.connectFail => AttemptResult.failed
  | AttemptSpec.connected polls =>
    match pollLoop (polls.take 3) with
    | PollResult.gotResponse => AttemptResult.ok
    | PollResult.fatal => AttemptResult.fatal
    | PollResult.expired => AttemptResult.failed

/-- Outer handshake loop, lines 49-103, carrying connectFailCount.
A failed attempt increments the counter and returns 1 at the third
failure (lines 92-97); a fatal attempt returns 1 at once; success
breaks out of the loop.  none means the supplied oracle list ended
before the loop did. -/
def connectLoop : List AttemptSpec → Nat → Option HandshakeOutcome
  | [], _ => none
  | a :: rest, failCount =>
    match runAttempt a with
    | AttemptResult.ok => some HandshakeOutcome.session
    | AttemptResult.fatal => some HandshakeOutcome.exitOne
    | AttemptResult.failed =>
      if failCount + 1 ≥ 3 then some HandshakeOutcome.exitOne
      else connectLoop rest (failCount + 1)

/-- Effects the loop body performs on its collaborators:
writePacket of a TERMINAL_BUFFER (line 147), bytes written to the
local output descriptor (line 169), writePacket of a KEEP_ALIVE
(line 193), closeSocketAndMaybeReconnect (line 190), and writePacket
of a TERMINAL_INFO (line 215). -/
inductive Effect where
  | sendBuffer (data : List Nat)
  | writeOut (bytes : List Nat)
  | sendKeepAlive
  | reconnect
  | sendInfo (ti : TerminalInfo)
deriving DecidableEq

/-- Kind of exception the tick body raises, if any: the catch at
line 219 handles only std::runtime_error; anything else escapes to
the catch at line 226. -/
inductive ExcKind where
  | noExn
  | runtimeError
  | otherExn
deriving DecidableEq

/-- How a tick leaves the main loop: continue, break (lines 142, 221),
or an exception that escapes the loop (outer catch, line 226). -/
inductive TickExit where
  | cont
  | brk
  | throwOther
deriving DecidableEq

/-- Header of a packet read in the main loop (line 159):
TerminalPacketType::TERMINAL_BUFFER, KEEP_ALIVE, or any other kind
(ignored by the default branch at line 179). -/
inductive TerminalPacketHeader where
  | terminalBuffer
  | keepAlive
  | other (n : Nat)
deriving DecidableEq

/-- One iteration of the drain loop (lines 154-183): either read()
returns false (break, line 156), or a packet arrives carrying its
header, its payload bytes and, for TERMINAL_BUFFER packets, the
results the ::write calls at line 168 will return. -/
inductive DrainEvent where
  | readFail
  | packet (hdr : TerminalPacketHeader) (payload : List Nat) (writeRcs : List Int)
deriving DecidableEq

/-- State owned by the main loop: keepaliveTime (line 112),
waitingOnKeepalive (line 113) and lastTerminalInfo (line 110). -/
structure LoopState where
  keepaliveTime : Int
  waitingOnKeepalive : Bool
  lastTerminalInfo : TerminalInfo
deriving DecidableEq

/-- Oracle data for one iteration of the main while loop:
isShuttingDown (line 118), the value time(NULL) returns this tick,
getSocketFd (line 126), FD_ISSET on the input descriptor (line 138)
with the result and bytes of the single ::read (line 139), FD_ISSET
on the client descriptor (line 153) with the drained packets, the
geometry *ws currently holds (lines 204-208), and whether the try
block throws. -/
structure TickInput where
  shuttingDown : Bool
  now : Int
  clientFd : Int
  inReady : Bool
  readRc : Int
  readData : List Nat
  clientReady : Bool
  drain : List DrainEvent
  geom : TerminalInfo
  exn : ExcKind
deriving DecidableEq

/-- Maximum read size, line 18: #define ET_BUF_SIZE (16 * 1024). -/
def ET_BUF_SIZE : Nat := 16 * 1024

/-- Partial-write retry loop, lines 166-172: while written < length,
write the remaining suffix; a non-positive result breaks, a positive
result advances written.  The Int list supplies the successive ::write
results; the returned list is the concatenation of the byte chunks
actually written. -/
def writeLoop (s : List Nat) : List Int → Nat → List Nat
  | [], _ => []
  | rc :: rest, written =>
    if written < s.length then
      if rc ≤ 0 then []
      else (s.drop written).take rc.toNat ++ writeLoop s rest (written + rc.toNat)
    else []

/-- Local-input forwarding, lines 144-149 (the rc <= 0 break is
handled by the caller): wrap the bytes read in a TERMINAL_BUFFER
packet and push the keepalive deadline forward. -/
def inputPhase (interval now : Int) (inReady : Bool) (readData : List Nat)
    (s : LoopState) : LoopState × List Effect :=
  if inReady then
    ({ s with keepaliveTime := now + interval }, [Effect.sendBuffer readData])
  else (s, [])

/-- Drain loop, lines 154-183: read packets while data is available; a
failed read breaks; TERMINAL_BUFFER payloads are written to the output
descriptor via the retry loop and push the keepalive deadline forward
(line 173); KEEP_ALIVE clears waitingOnKeepalive (line 177); every
other kind is ignored (line 179). -/
def drainLoop (interval now : Int) (s : LoopState) :
    List DrainEvent → LoopState × List Effect
  | [] => (s, [])
  | DrainEvent.readFail :: _ => (s, [])
  | DrainEvent.packet hdr payload rcs :: rest =>
    match hdr with
    | TerminalPacketHeader.terminalBuffer =>
      let out := writeLoop payload rcs 0
      let r := drainLoop interval now { s with keepaliveTime := now + interval } rest
      (r.1, Effect.writeOut out :: r.2)
    | TerminalPacketHeader.keepAlive =>
      drainLoop interval now { s with waitingOnKeepalive := false } rest
    | TerminalPacketHeader.other _ => drainLoop interval now s rest

/-- Keepalive block, lines 186-200: with a positive descriptor and the
deadline strictly passed, either reconnect (probe outstanding) or send
a probe, in both cases re-arming the deadline; afterwards a negative
descriptor forces waitingOnKeepalive back to false (lines 198-200). -/
def keepalivePhase (interval now clientFd : Int) (s : LoopState) :
    LoopState × List Effect :=
  let r :=
    if clientFd > 0 ∧ s.keepaliveTime < now then
      if s.waitingOnKeepalive then
        ({ s with keepaliveTime := now + interval, waitingOnKeepalive := false },
          [Effect.reconnect])
      else
        ({ s with keepaliveTime := now + interval, waitingOnKeepalive := true },
          [Effect.sendKeepAlive])
    else (s, [])
  if clientFd < 0 then ({ r.1 with waitingOnKeepalive := false }, r.2) else r

/-- Geometry block, lines 202-218: build the current 4-tuple from *ws
and transmit it iff any of the 4 fields differs from
lastTerminalInfo, recording it as the new lastTerminalInfo. -/
def geometryPhase (s : LoopState) (g : TerminalInfo) : LoopState × List Effect :=
  if g.row ≠ s.lastTerminalInfo.row ∨ g.column ≠ s.lastTerminalInfo.column ∨
      g.width ≠ s.lastTerminalInfo.width ∨ g.height ≠ s.lastTerminalInfo.height then
    ({ s with lastTerminalInfo := g }, [Effect.sendInfo g])
  else (s, [])

/-- One iteration of the main while loop body, lines 119-222, after
the isShuttingDown check: an exception aborts the try block (break
for std::runtime_error, escape otherwise); a ready local input with a
non-positive read result breaks (lines 140-143); otherwise the four
phases run in source order and their effects are concatenated. -/
def tick (interval : Int) (s : LoopState) (i : TickInput) :
    LoopState × List Effect × TickExit :=
  match i.exn with
  | ExcKind.runtimeError => (s, [], TickExit.brk)
  | ExcKind.otherExn => (s, [], TickExit.throwOther)
  | ExcKind.noExn =>
    if i.inReady ∧ i.readRc ≤ 0 then (s, [], TickExit.brk)
    else
      let p1 := inputPhase interval i.now i.inReady i.readData s
      let p2 := if i.clientFd > 0 ∧ i.clientReady
                then drainLoop interval i.now p1.1 i.drain
                else (p1.1, [])
      let p3 := keepalivePhase interval i.now i.clientFd p2.1
      let p4 := geometryPhase p3.1 i.geom
      (p4.1, p1.2 ++ p2.2 ++ p3.2 ++ p4.2, TickExit.cont)

/-- The main while loop (lines 118-223) followed by shutdown
(line 225) and the outer catch (lines 226-228).  The result is
(actions, number of shutdown invocations, exit code); none means the
supplied tick oracle ran out before the loop terminated.  Breaking the
loop reaches connection->shutdown() and returns 0; an exception not
caught at line 219 reaches the outer catch and returns 1 without
shutdown. -/
def runLoop (interval : Int) (s : LoopState) :
    List TickInput → Option (List Effect × Nat × Int)
  | [] => none
  | i :: rest =>
    if i.shuttingDown then some ([], 1, 0)
    else
      match tick interval s i with
      | (_, as, TickExit.brk) => some (as, 1, 0)
      | (_, as, TickExit.throwOther) => some (as, 0, 1)
      | (s', as, TickExit.cont) =>
        match runLoop interval s' rest with
        | none => none
        | some (as2, n, c) => some (as ++ as2, n, c)

/-- Loop state as initialized at lines 110-113: keepaliveTime =
time(NULL) + keepalive_secs, no probe outstanding, default-constructed
(all-zero) lastTerminalInfo. -/
def initialLoopState (t0 interval : Int) : LoopState :=
  { keepaliveTime := t0 + interval, waitingOnKeepalive := false,
    lastTerminalInfo := { row := 0, column := 0, width := 0, height := 0 } }

/-- Arguments of et_client_main (header lines 10-14): each pointer
argument is modelled by whether it is non-null. -/
structure BridgeArgs where
  f_in : Bool
  f_out : Bool
  ws : Bool
  host : Bool
  id : Bool
  passkey : Bool
  keepalive_secs : Int
deriving DecidableEq

/-- Parameter validation, lines 24-29: any null pointer returns 1
before anything else happens; a keepalive interval below 1 is
replaced by 5.  Returns the interval actually used. -/
def validateArgs (a : BridgeArgs) : Option Int :=
  if !a.f_in || !a.f_out || !a.ws || !a.host || !a.id || !a.passkey then none
  else if a.keepalive_secs < 1 then some 5 else some a.keepalive_secs

/-- Whole function et_client_main, lines 20-231: validate, run the
handshake loop, then the main loop from the initial state; handshake
failure and validation failure exit 1 with no actions and no
shutdown. -/
def et_client_main (a : BridgeArgs) (t0 : Int) (attempts : List AttemptSpec)
    (ticks : List TickInput) : Option (List Effect × Nat × Int) :=
  match validateArgs a with
  | none => some ([], 0, 1)
  | some interval =>
    match connectLoop attempts 0 with
    | none => none
    | some HandshakeOutcome.exitOne => some ([], 0, 1)
    | some HandshakeOutcome.session =>
      runLoop interval (initialLoopState t0 interval) ticks

/-- A tick on which nothing external happens: no shutdown request, no
local input, no transport readiness, no exception; the descriptor and
clock are as given and the geometry reads g. -/
def quietTick (fd t : Int) (g : TerminalInfo) : TickInput :=
  { shuttingDown := false, now := t, clientFd := fd, inReady := false,
    readRc := 0, readData := [], clientReady := false, drain := [],
    geom := g, exn := ExcKind.noExn }

/-- A tick on which the transport reports isShuttingDown. -/
def stopTick : TickInput :=
  { shuttingDown := true, now := 0, clientFd := 0, inReady := false,
    readRc := 0, readData := [], clientReady := false, drain := [],
    geom := { row := 0, column := 0, width := 0, height := 0 },
    exn := ExcKind.noExn }

/-- Recognizers for the action kinds, used to project one component's
effects out of a tick's action list. -/
def Effect.isSendBuffer : Effect → Bool
  | Effect.sendBuffer _ => true
  | _ => false

def Effect.isWriteOut : Effect → Bool
  | Effect.writeOut _ => true
  | _ => false

def Effect.isSendKeepAlive : Effect → Bool
  | Effect.sendKeepAlive => true
  | _ => false

def Effect.isReconnect : Effect → Bool
  | Effect.reconnect => true
  | _ => false

def Effect.isSendInfo : Effect → Bool
  | Effect.sendInfo _ => true
  | _ => false

/-- The TERMINAL_BUFFER sends, local-output writes, KEEP_ALIVE sends,
reconnect requests and TERMINAL_INFO sends among a tick's actions. -/
def sendBufferActs (as : List Effect) : List Effect := as.filter Effect.isSendBuffer

def writeActs (as : List Effect) : List Effect := as.filter Effect.isWriteOut

def probeActs (as : List Effect) : List Effect := as.filter Effect.isSendKeepAlive

def reconActs (as : List Effect) : List Effect := as.filter Effect.isReconnect

def sendInfoActs (as : List Effect) : List Effect := as.filter Effect.isSendInfo

/-- The geometry block alone, folded over a list of successive
geometry observations. -/
def geomRun (s : LoopState) : List TerminalInfo → List Effect
  | [] => []
  | g :: rest =>
    let p := geometryPhase s g
    p.2 ++ geomRun p.1 rest

/-- Modelled from the spec: the distinct-transition subsequence of a
sequence of geometry observations, relative to a last-transmitted
value — each observation that differs from the previous transmitted
one, which then becomes the new point of comparison. -/
def changesFrom (last : TerminalInfo) : List TerminalInfo → List TerminalInfo
  | [] => []
  | g :: rest => if g = last then changesFrom last rest else g :: changesFrom g rest

/-- A tick on which the try block raises the given kind of exception
before performing any effect. -/
def faultTick (k : ExcKind) : TickInput :=
  { shuttingDown := false, now := 0, clientFd := 1, inReady := false,
    readRc := 0, readData := [], clientReady := false, drain := [],
    geom := { row := 0, column := 0, width := 0, height := 0 }, exn := k }

/-- A handshake attempt that immediately receives a valid, error-free
initial response. -/
def goodAttempt : AttemptSpec :=
  AttemptSpec.connected [PollStep.packet EtPacketHeader.initialResponse false]

/-- A tick carrying one inbound terminal-data packet whose two bytes
the local ::write accepts in one call. -/
def resumeTick : TickInput :=
  { shuttingDown := false, now := 0, clientFd := 1, inReady := false,
    readRc := 0, readData := [], clientReady := true,
    drain := [DrainEvent.packet TerminalPacketHeader.terminalBuffer
      [104, 105] [2]],
    geom := { row := 0, column := 0, width := 0, height := 0 },
    exn := ExcKind.noExn }

/-- A tick with ready local input whose read reports EOF. -/
def eofTick : TickInput :=
  { shuttingDown := false, now := 0, clientFd := 1, inReady := true,
    readRc := 0, readData := [], clientReady := false, drain := [],
    geom := { row := 0, column := 0, width := 0, height := 0 },
    exn := ExcKind.noExn }

/-- A tick with ready local input whose read returns the 3 bytes
97 98 99. -/
def dataTick : TickInput :=
  { shuttingDown := false, now := 100, clientFd := 1, inReady := true,
    readRc := 3, readData := [97, 98, 99], clientReady := false, drain := [],
    geom := { row := 0, column := 0, width := 0, height := 0 },
    exn := ExcKind.noExn }

/-! ## Helper lemmas about the phases of a tick -/

theorem inputPhase_waiting (interval now : Int) (r : Bool) (d : List Nat)
    (s : LoopState) :
    (inputPhase interval now r d s).1.waitingOnKeepalive = s.waitingOnKeepalive := by
  cases r <;> simp [inputPhase]

theorem inputPhase_lastInfo (interval now : Int) (r : Bool) (d : List Nat)
    (s : LoopState) :
    (inputPhase interval now r d s).1.lastTerminalInfo = s.lastTerminalInfo := by
  cases r <;> simp [inputPhase]

theorem inputPhase_acts (interval now : Int) (r : Bool) (d : List Nat)
    (s : LoopState) :
    (inputPhase interval now r d s).2 = [] ∨
      (inputPhase interval now r d s).2 = [Effect.sendBuffer d] := by
  cases r <;> simp [inputPhase]

theorem drainLoop_lastInfo (interval now : Int) :
    ∀ (evs : List DrainEvent) (s : LoopState),
      (drainLoop interval now s evs).1.lastTerminalInfo = s.lastTerminalInfo := by
  intro evs
  induction evs with
  | nil => intro s; simp [drainLoop]
  | cons e rest ih =>
    intro s
    cases e with
    | readFail => simp [drainLoop]
    | packet hdr payload rcs =>
      cases hdr with
      | terminalBuffer => simpa [drainLoop] using ih _
      | keepAlive => simpa [drainLoop] using ih _
      | other n => simpa [drainLoop] using ih _

theorem drainLoop_acts_writeOut (interval now : Int) :
    ∀ (evs : List DrainEvent) (s : LoopState) (a : Effect),
      a ∈ (drainLoop interval now s evs).2 → ∃ bs, a = Effect.writeOut bs := by
  intro evs
  induction evs with
  | nil => intro s a h; simp [drainLoop] at h
  | cons e rest ih =>
    intro s a h
    cases e with
    | readFail => simp [drainLoop] at h
    | packet hdr payload rcs =>
      cases hdr with
      | terminalBuffer =>
        simp only [drainLoop, List.mem_cons] at h
        rcases h with h | h
        · exact ⟨_, h⟩
        · exact ih _ _ h
      | keepAlive =>
        simp only [drainLoop] at h
        exact ih _ _ h
      | other n =>
        simp only [drainLoop] at h
        exact ih _ _ h

theorem keepalivePhase_lastInfo (interval now fd : Int) (s : LoopState) :
    (keepalivePhase interval now fd s).1.lastTerminalInfo = s.lastTerminalInfo := by
  unfold keepalivePhase
  split <;> split <;> simp_all <;> split <;> simp_all

theorem keepalivePhase_acts (interval now fd : Int) (s : LoopState) :
    (keepalivePhase interval now fd s).2 = [] ∨
      (keepalivePhase interval now fd s).2 = [Effect.sendKeepAlive] ∨
      (keepalivePhase interval now fd s).2 = [Effect.reconnect] := by
  unfold keepalivePhase
  split <;> split <;> simp_all <;> split <;> simp_all

theorem keepalivePhase_fd_zero (interval now : Int) (s : LoopState) :
    keepalivePhase interval now 0 s = (s, []) := by
  simp [keepalivePhase]

theorem geometryPhase_keepalive (s : LoopState) (g : TerminalInfo) :
    (geometryPhase s g).1.keepaliveTime = s.keepaliveTime ∧
      (geometryPhase s g).1.waitingOnKeepalive = s.waitingOnKeepalive := by
  unfold geometryPhase
  split <;> simp

theorem geometryPhase_acts (s : LoopState) (g : TerminalInfo) :
    (geometryPhase s g).2 = [] ∨ (geometryPhase s g).2 = [Effect.sendInfo g] := by
  unfold geometryPhase
  split <;> simp

/-! ## Core lemma for the partial-write retry loop -/

theorem writeLoop_drop (s : List Nat) :
    ∀ (rcs : List Int) (written : Nat), (∀ rc ∈ rcs, 0 < rc) →
      written + (rcs.map Int.toNat).sum = s.length →
      writeLoop s rcs written = s.drop written := by
  intro rcs
  induction rcs with
  | nil =>
    intro written _ hsum
    simp only [List.map_nil, List.sum_nil, Nat.add_zero] at hsum
    simp only [writeLoop]
    exact (List.drop_eq_nil_of_le (le_of_eq hsum.symm)).symm
  | cons rc rest ih =>
    intro written hpos hsum
    have hrc : 0 < rc := hpos rc (by simp)
    have hrest : ∀ r ∈ rest, 0 < r := fun r hr => hpos r (by simp [hr])
    simp only [List.map_cons, List.sum_cons] at hsum
    have hk : 0 < rc.toNat := by omega
    have hlt : written < s.length := by omega
    have hsum2 : (written + rc.toNat) + (rest.map Int.toNat).sum = s.length := by omega
    simp only [writeLoop, if_pos hlt, if_neg (not_le.mpr hrc)]
    rw [ih (written + rc.toNat) hrest hsum2]
    rw [show s.drop (written + rc.toNat) = (s.drop written).drop rc.toNat by
      rw [List.drop_drop]]
    exact List.take_append_drop _ _

/-! ## Claim C6: terminal-data write discipline -/

/-- C6: when an inbound terminal-data message is dispatched, its
payload is written by repeatedly writing the remaining unwritten
suffix until all bytes are written or a write call returns a
non-positive result; when the write results are positive and account
for the whole payload the output is a byte-for-byte copy, and a write
error abandons only the remainder of that message for this tick while
the drain loop continues with the remaining messages. -/
theorem C6_write_discipline :
    (∀ (s : List Nat) (rcs : List Int), (∀ rc ∈ rcs, 0 < rc) →
        (rcs.map Int.toNat).sum = s.length →
        writeLoop s rcs 0 = s) ∧
    (∀ (interval now : Int) (st : LoopState) (payload : List Nat)
        (rcs : List Int) (rest : List DrainEvent),
        drainLoop interval now st
            (DrainEvent.packet TerminalPacketHeader.terminalBuffer payload rcs :: rest) =
          ((drainLoop interval now { st with keepaliveTime := now + interval } rest).1,
            Effect.writeOut (writeLoop payload rcs 0) ::
              (drainLoop interval now { st with keepaliveTime := now + interval } rest).2)) := by
  constructor
  · intro s rcs hpos hsum
    have := writeLoop_drop s rcs 0 hpos (by omega)
    simpa using this
  · intro interval now st payload rcs rest
    simp [drainLoop]

/-- Witness for C6: the 5-byte payload "hello" (bytes 104 101 108 108
111) written as 2 then 3 bytes arrives byte-for-byte. -/
theorem C6_write_discipline_witness :
    writeLoop [104, 101, 108, 108, 111] [2, 3] 0 = [104, 101, 108, 108, 111] :=
  C6_write_discipline.1 [104, 101, 108, 108, 111] [2, 3] (by decide) (by decide)

/-! ## Claim C9: entry validation -/

/-- C9: et_client_main returns 1 immediately — independently of
everything the transport would do, with no actions performed and no
shutdown — whenever any of the input stream, output stream,
window-size pointer, host, id or passkey arguments is null; and for
every keepalive interval below 1 the whole run behaves exactly as a
run with the default interval of 5 seconds. -/
theorem C9_entry_validation :
    (∀ (a : BridgeArgs) (t0 : Int) (attempts : List AttemptSpec)
        (ticks : List TickInput),
        (a.f_in = false ∨ a.f_out = false ∨ a.ws = false ∨ a.host = false ∨
          a.id = false ∨ a.passkey = false) →
        et_client_main a t0 attempts ticks = some ([], 0, 1)) ∧
    (∀ (a : BridgeArgs) (t0 : Int) (attempts : List AttemptSpec)
        (ticks : List TickInput),
        a.keepalive_secs < 1 →
        et_client_main a t0 attempts ticks =
          et_client_main { a with keepalive_secs := 5 } t0 attempts ticks) := by
  constructor
  · intro a t0 attempts ticks h
    rcases h with h | h | h | h | h | h <;> simp [et_client_main, validateArgs, h]
  · intro a t0 attempts ticks h
    unfold et_client_main validateArgs
    by_cases hnull :
        (!a.f_in || !a.f_out || !a.ws || !a.host || !a.id || !a.passkey) = true
    · simp [hnull]
    · simp only [Bool.not_eq_true] at hnull
      simp [hnull, h, if_pos h]

/-- Witness for C9: a null input stream exits 1 at once; the interval
0 run coincides with the default-5 run. -/
theorem C9_entry_validation_witness :
    et_client_main ⟨false, true, true, true, true, true, 5⟩ 0 [] [] =
      some ([], 0, 1) ∧
    et_client_main ⟨true, true, true, true, true, true, 0⟩ 0 [] [] =
      et_client_main ⟨true, true, true, true, true, true, 5⟩ 0 [] [] :=
  ⟨C9_entry_validation.1 ⟨false, true, true, true, true, true, 5⟩ 0 [] [] (Or.inl rfl),
    C9_entry_validation.2 ⟨true, true, true, true, true, true, 0⟩ 0 [] [] (by decide)⟩

/-! ## Claim C10: descriptor-zero asymmetry -/

/-- C10: on a tick whose transport descriptor is exactly 0 (and whose
body neither throws nor breaks on local input), no keepalive probe, no
reconnect and no local-output write occurs — the guards require a
strictly positive descriptor — yet the pending-probe flag is left
exactly as it was, because the invalid-descriptor reset requires a
strictly negative descriptor. -/
theorem C10_descriptor_zero (interval : Int) (s : LoopState) (i : TickInput)
    (hexn : i.exn = ExcKind.noExn) (hfd : i.clientFd = 0)
    (hread : ¬(i.inReady = true ∧ i.readRc ≤ 0)) :
    (tick interval s i).2.2 = TickExit.cont ∧
    probeActs (tick interval s i).2.1 = [] ∧
    reconActs (tick interval s i).2.1 = [] ∧
    writeActs (tick interval s i).2.1 = [] ∧
    (tick interval s i).1.waitingOnKeepalive = s.waitingOnKeepalive := by
  unfold tick
  rw [hexn]
  simp only [if_neg hread, hfd]
  have hng : ¬((0:Int) > 0 ∧ i.clientReady = true) := by simp
  simp only [if_neg hng, keepalivePhase_fd_zero]
  refine ⟨?_, ?_, ?_, ?_, ?_⟩
  · trivial
  · rcases inputPhase_acts interval i.now i.inReady i.readData s with h | h <;>
      rcases geometryPhase_acts (inputPhase interval i.now i.inReady i.readData s).1 i.geom
        with h2 | h2 <;>
      simp [probeActs, h, h2, Effect.isSendKeepAlive]
  · rcases inputPhase_acts interval i.now i.inReady i.readData s with h | h <;>
      rcases geometryPhase_acts (inputPhase interval i.now i.inReady i.readData s).1 i.geom
        with h2 | h2 <;>
      simp [reconActs, h, h2, Effect.isReconnect]
  · rcases inputPhase_acts interval i.now i.inReady i.readData s with h | h <;>
      rcases geometryPhase_acts (inputPhase interval i.now i.inReady i.readData s).1 i.geom
        with h2 | h2 <;>
      simp [writeActs, h, h2, Effect.isWriteOut]
  · rw [(geometryPhase_keepalive _ _).2, inputPhase_waiting]

/-- Witness for C10: a tick with descriptor 0 and an outstanding probe
leaves the flag set and performs no probe, reconnect or write. -/
theorem C10_descriptor_zero_witness :
    (tick 5 ⟨3, true, ⟨1, 2, 3, 4⟩⟩ (quietTick 0 10 ⟨1, 2, 3, 4⟩)).2.2 =
        TickExit.cont ∧
    probeActs (tick 5 ⟨3, true, ⟨1, 2, 3, 4⟩⟩ (quietTick 0 10 ⟨1, 2, 3, 4⟩)).2.1 = [] ∧
    reconActs (tick 5 ⟨3, true, ⟨1, 2, 3, 4⟩⟩ (quietTick 0 10 ⟨1, 2, 3, 4⟩)).2.1 = [] ∧
    writeActs (tick 5 ⟨3, true, ⟨1, 2, 3, 4⟩⟩ (quietTick 0 10 ⟨1, 2, 3, 4⟩)).2.1 = [] ∧
    (tick 5 ⟨3, true, ⟨1, 2, 3, 4⟩⟩ (quietTick 0 10 ⟨1, 2, 3, 4⟩)).1.waitingOnKeepalive =
        true :=
  C10_descriptor_zero 5 ⟨3, true, ⟨1, 2, 3, 4⟩⟩ (quietTick 0 10 ⟨1, 2, 3, 4⟩)
    rfl rfl (by decide)

/-! ## Handshake lemmas -/

theorem pollLoop_skip_expired :
    ∀ polls : List PollStep,
      (∀ p ∈ polls, p = PollStep.fdInvalid ∨ p = PollStep.notReady ∨
        p = PollStep.readFail) →
      pollLoop polls = PollResult.expired := by
  intro polls
  induction polls with
  | nil => intro _; rfl
  | cons p rest ih =>
    intro h
    rcases h p (by simp) with hp | hp | hp <;> subst hp <;>
      simpa [pollLoop] using ih (fun q hq => h q (by simp [hq]))

/-! ## Claim C3: handshake bounded retry -/

/-- C3: with no attempt hitting a terminal (return-1) condition, the
handshake yields a live Session iff some of the first 3 outer attempts
obtains a valid non-error initial response, and yields ConnectError
iff all 3 attempts end without one; within an attempt at most the
first 3 poll observations matter, an attempt whose polls all expire
without readiness (or whose descriptor is never valid) merely fails
that attempt and increments the outer counter, and a handshake-level
ConnectError surfaces as exit code 1 with no actions and no
shutdown. -/
theorem C3_handshake_bounded_retry :
    (∀ (a1 a2 a3 : AttemptSpec) (rest : List AttemptSpec),
        runAttempt a1 ≠ AttemptResult.fatal →
        runAttempt a2 ≠ AttemptResult.fatal →
        runAttempt a3 ≠ AttemptResult.fatal →
        (connectLoop (a1 :: a2 :: a3 :: rest) 0 = some HandshakeOutcome.session ↔
          (runAttempt a1 = AttemptResult.ok ∨
            (runAttempt a1 = AttemptResult.failed ∧
              runAttempt a2 = AttemptResult.ok) ∨
            (runAttempt a1 = AttemptResult.failed ∧
              runAttempt a2 = AttemptResult.failed ∧
              runAttempt a3 = AttemptResult.ok))) ∧
        (connectLoop (a1 :: a2 :: a3 :: rest) 0 = some HandshakeOutcome.exitOne ↔
          (runAttempt a1 = AttemptResult.failed ∧
            runAttempt a2 = AttemptResult.failed ∧
            runAttempt a3 = AttemptResult.failed))) ∧
    (∀ polls : List PollStep,
        runAttempt (AttemptSpec.connected polls) =
          runAttempt (AttemptSpec.connected (polls.take 3))) ∧
    (∀ polls : List PollStep,
        (∀ p ∈ polls, p = PollStep.fdInvalid ∨ p = PollStep.notReady ∨
          p = PollStep.readFail) →
        runAttempt (AttemptSpec.connected polls) = AttemptResult.failed) ∧
    (∀ (a : AttemptSpec) (rest : List AttemptSpec) (c : Nat),
        runAttempt a = AttemptResult.failed → c + 1 < 3 →
        connectLoop (a :: rest) c = connectLoop rest (c + 1)) ∧
    (∀ (a : BridgeArgs) (t0 interval : Int) (attempts : List AttemptSpec)
        (ticks : List TickInput),
        validateArgs a = some interval →
        connectLoop attempts 0 = some HandshakeOutcome.exitOne →
        et_client_main a t0 attempts ticks = some ([], 0, 1)) := by
  refine ⟨?_, ?_, ?_, ?_, ?_⟩
  · intro a1 a2 a3 rest h1 h2 h3
    cases e1 : runAttempt a1 with
    | fatal => exact absurd e1 h1
    | ok => constructor <;> simp [connectLoop, e1]
    | failed =>
      cases e2 : runAttempt a2 with
      | fatal => exact absurd e2 h2
      | ok => constructor <;> simp [connectLoop, e1, e2]
      | failed =>
        cases e3 : runAttempt a3 with
        | fatal => exact absurd e3 h3
        | ok => constructor <;> simp [connectLoop, e1, e2, e3]
        | failed => constructor <;> simp [connectLoop, e1, e2, e3]
  · intro polls
    simp [runAttempt, List.take_take]
  · intro polls h
    have h3 : ∀ p ∈ polls.take 3, p = PollStep.fdInvalid ∨ p = PollStep.notReady ∨
        p = PollStep.readFail := fun p hp => h p (List.mem_of_mem_take hp)
    simp [runAttempt, pollLoop_skip_expired _ h3]
  · intro a rest c hf hc
    simp only [connectLoop, hf]
    rw [if_neg (by omega)]
  · intro a t0 interval attempts ticks hv hc
    simp [et_client_main, hv, hc]

/-- Witness for C3: three attempts whose connect() returns false
produce ConnectError, surfaced by et_client_main as exit code 1. -/
theorem C3_handshake_bounded_retry_witness :
    connectLoop [AttemptSpec.connectFail, AttemptSpec.connectFail,
        AttemptSpec.connectFail] 0 = some HandshakeOutcome.exitOne ∧
    et_client_main ⟨true, true, true, true, true, true, 5⟩ 0
        [AttemptSpec.connectFail, AttemptSpec.connectFail, AttemptSpec.connectFail]
        [] = some ([], 0, 1) := by
  have h1 := ((C3_handshake_bounded_retry.1 AttemptSpec.connectFail
    AttemptSpec.connectFail AttemptSpec.connectFail [] (by decide) (by decide)
    (by decide)).2).mpr (by decide)
  exact ⟨h1, C3_handshake_bounded_retry.2.2.2.2
    ⟨true, true, true, true, true, true, 5⟩ 0 5 _ [] (by decide) h1⟩

/-! ## Claim C4: handshake immediate terminal failure -/

/-- C4: a response packet whose kind is not INITIAL_RESPONSE, or of
the right kind but carrying an embedded error, makes the poll loop —
and with it the whole handshake — fail at once, as does any exception
raised during an attempt; a fatal attempt ends the handshake with exit
code 1 regardless of how many outer attempts or retries remain. -/
theorem C4_handshake_immediate_failure :
    (∀ (hdr : EtPacketHeader) (e : Bool) (rest : List PollStep),
        hdr ≠ EtPacketHeader.initialResponse →
        pollLoop (PollStep.packet hdr e :: rest) = PollResult.fatal) ∧
    (∀ rest : List PollStep,
        pollLoop (PollStep.packet EtPacketHeader.initialResponse true :: rest) =
          PollResult.fatal) ∧
    (∀ rest : List PollStep, pollLoop (PollStep.exn :: rest) = PollResult.fatal) ∧
    runAttempt AttemptSpec.connectExn = AttemptResult.fatal ∧
    (∀ polls : List PollStep, pollLoop (polls.take 3) = PollResult.fatal →
        runAttempt (AttemptSpec.connected polls) = AttemptResult.fatal) ∧
    (∀ (a : AttemptSpec) (rest : List AttemptSpec) (c : Nat),
        runAttempt a = AttemptResult.fatal →
        connectLoop (a :: rest) c = some HandshakeOutcome.exitOne) ∧
    (∀ (args : BridgeArgs) (t0 interval : Int) (a : AttemptSpec)
        (rest : List AttemptSpec) (ticks : List TickInput),
        validateArgs args = some interval →
        runAttempt a = AttemptResult.fatal →
        et_client_main args t0 (a :: rest) ticks = some ([], 0, 1)) := by
  refine ⟨?_, ?_, ?_, rfl, ?_, ?_, ?_⟩
  · intro hdr e rest h
    simp [pollLoop, h]
  · intro rest
    simp [pollLoop]
  · intro rest
    simp [pollLoop]
  · intro polls h
    simp [runAttempt, h]
  · intro a rest c hf
    simp [connectLoop, hf]
  · intro args t0 interval a rest ticks hv hf
    simp [et_client_main, hv, connectLoop, hf]

/-- Witness for C4: a first attempt that decodes a wrong-kind packet
ends the whole handshake with exit 1 even though a later attempt would
have succeeded. -/
theorem C4_handshake_immediate_failure_witness :
    et_client_main ⟨true, true, true, true, true, true, 5⟩ 0
        [AttemptSpec.connected [PollStep.packet (EtPacketHeader.other 7) false],
          AttemptSpec.connected
            [PollStep.packet EtPacketHeader.initialResponse false]]
        [] = some ([], 0, 1) :=
  C4_handshake_immediate_failure.2.2.2.2.2.2
    ⟨true, true, true, true, true, true, 5⟩ 0 5
    (AttemptSpec.connected [PollStep.packet (EtPacketHeader.other 7) false])
    [AttemptSpec.connected [PollStep.packet EtPacketHeader.initialResponse false]]
    [] (by decide) (by decide)

/-! ## Lemmas about the main loop -/

theorem runLoop_stop (interval : Int) (s : LoopState) (i : TickInput)
    (rest : List TickInput) (h : i.shuttingDown = true) :
    runLoop interval s (i :: rest) = some ([], 1, 0) := by
  simp [runLoop, h]

theorem runLoop_cons_cont (interval : Int) (s s' : LoopState) (i : TickInput)
    (rest : List TickInput) (as as2 : List Effect) (n : Nat) (c : Int)
    (hsd : i.shuttingDown = false)
    (ht : tick interval s i = (s', as, TickExit.cont))
    (h2 : runLoop interval s' rest = some (as2, n, c)) :
    runLoop interval s (i :: rest) = some (as ++ as2, n, c) := by
  simp [runLoop, hsd, ht, h2]

theorem runLoop_cons_brk (interval : Int) (s s' : LoopState) (i : TickInput)
    (rest : List TickInput) (as : List Effect)
    (hsd : i.shuttingDown = false)
    (ht : tick interval s i = (s', as, TickExit.brk)) :
    runLoop interval s (i :: rest) = some (as, 1, 0) := by
  simp [runLoop, hsd, ht]

theorem runLoop_cons_throw (interval : Int) (s s' : LoopState) (i : TickInput)
    (rest : List TickInput) (as : List Effect)
    (hsd : i.shuttingDown = false)
    (ht : tick interval s i = (s', as, TickExit.throwOther)) :
    runLoop interval s (i :: rest) = some (as, 0, 1) := by
  simp [runLoop, hsd, ht]

theorem keepalivePhase_time_nofire (interval now fd : Int) (s : LoopState)
    (h : ¬ s.keepaliveTime < now) :
    (keepalivePhase interval now fd s).1.keepaliveTime = s.keepaliveTime := by
  unfold keepalivePhase
  have hng : ¬(fd > 0 ∧ s.keepaliveTime < now) := fun hc => h hc.2
  rw [if_neg hng]
  split <;> rfl

theorem drainLoop_keepaliveTime (interval now : Int) :
    ∀ (evs : List DrainEvent) (s : LoopState),
      s.keepaliveTime = now + interval →
      (drainLoop interval now s evs).1.keepaliveTime = now + interval := by
  intro evs
  induction evs with
  | nil => intro s hs; simpa [drainLoop] using hs
  | cons e rest ih =>
    intro s hs
    cases e with
    | readFail => simpa [drainLoop] using hs
    | packet hdr payload rcs =>
      cases hdr with
      | terminalBuffer => simpa [drainLoop] using ih _ rfl
      | keepAlive =>
        simpa [drainLoop] using ih { s with waitingOnKeepalive := false } hs
      | other n => simpa [drainLoop] using ih s hs

/-! ## Claim C5: shutdown and fault conversion -/

/-- C5 counterexample: a run whose only tick raises an exception that
is not a std::runtime_error (reaching the catch at line 226, past the
loop-boundary catch at line 219) exits with code 1 and zero shutdown
invocations, although the Session was constructed — so shutdown is NOT
invoked on every post-Session exit path, and not every exception is
caught at the loop boundary. -/
theorem C5_shutdown_counterexample :
    et_client_main ⟨true, true, true, true, true, true, 5⟩ 0 [goodAttempt]
      [faultTick ExcKind.otherExn] = some ([], 0, 1) := by decide

/-- C5 amended: every loop-terminating exit path — transport shutdown
flag, local-input EOF or error, and exceptions of the runtime-error
kind caught at the loop boundary — invokes shutdown exactly once and
yields exit code 0; an exception of any other kind propagates to the
outer boundary and yields exit code 1 without shutdown; in all cases
the fault is converted to the binary exit code {0, 1} as a value, and
shutdown is invoked exactly on the code-0 paths. -/
theorem C5_shutdown_conversion :
    (∀ (interval : Int) (s : LoopState) (i : TickInput) (rest : List TickInput),
        i.shuttingDown = true →
        runLoop interval s (i :: rest) = some ([], 1, 0)) ∧
    (∀ (interval : Int) (s : LoopState) (i : TickInput) (rest : List TickInput),
        i.shuttingDown = false → i.exn = ExcKind.runtimeError →
        runLoop interval s (i :: rest) = some ([], 1, 0)) ∧
    (∀ (interval : Int) (s : LoopState) (i : TickInput) (rest : List TickInput),
        i.shuttingDown = false → i.exn = ExcKind.noExn → i.inReady = true →
        i.readRc ≤ 0 →
        runLoop interval s (i :: rest) = some ([], 1, 0)) ∧
    (∀ (interval : Int) (s : LoopState) (i : TickInput) (rest : List TickInput),
        i.shuttingDown = false → i.exn = ExcKind.otherExn →
        runLoop interval s (i :: rest) = some ([], 0, 1)) ∧
    (∀ (interval : Int) (s : LoopState) (ticks : List TickInput)
        (as : List Effect) (n : Nat) (c : Int),
        runLoop interval s ticks = some (as, n, c) →
        (n = 1 ∧ c = 0) ∨ (n = 0 ∧ c = 1)) := by
  refine ⟨?_, ?_, ?_, ?_, ?_⟩
  · intro interval s i rest h
    exact runLoop_stop interval s i rest h
  · intro interval s i rest hsd hexn
    refine runLoop_cons_brk interval s s i rest [] hsd ?_
    unfold tick
    rw [hexn]
  · intro interval s i rest hsd hexn hin hrc
    refine runLoop_cons_brk interval s s i rest [] hsd ?_
    unfold tick
    rw [hexn]
    rw [if_pos ⟨hin, hrc⟩]
  · intro interval s i rest hsd hexn
    refine runLoop_cons_throw interval s s i rest [] hsd ?_
    unfold tick
    rw [hexn]
  · intro interval s ticks
    induction ticks generalizing s with
    | nil => intro as n c h; simp [runLoop] at h
    | cons i rest ih =>
      intro as n c h
      by_cases hsd : i.shuttingDown = true
      · rw [runLoop_stop interval s i rest hsd] at h
        simp only [Option.some.injEq, Prod.mk.injEq] at h
        exact Or.inl ⟨h.2.1.symm, h.2.2.symm⟩
      · rw [Bool.not_eq_true] at hsd
        rcases htick : tick interval s i with ⟨s', tas, ex⟩
        cases ex with
        | brk =>
          rw [runLoop_cons_brk interval s s' i rest tas hsd htick] at h
          simp only [Option.some.injEq, Prod.mk.injEq] at h
          exact Or.inl ⟨h.2.1.symm, h.2.2.symm⟩
        | throwOther =>
          rw [runLoop_cons_throw interval s s' i rest tas hsd htick] at h
          simp only [Option.some.injEq, Prod.mk.injEq] at h
          exact Or.inr ⟨h.2.1.symm, h.2.2.symm⟩
        | cont =>
          rcases hrl : runLoop interval s' rest with _ | ⟨as2, n2, c2⟩
          · rw [runLoop] at h
            rw [if_neg (by simp [hsd]), htick] at h
            simp only at h
            rw [hrl] at h
            cases h
          · rw [runLoop_cons_cont interval s s' i rest tas as2 n2 c2 hsd htick hrl]
              at h
            simp only [Option.some.injEq, Prod.mk.injEq] at h
            obtain ⟨-, h2, h3⟩ := h
            rcases ih s' as2 n2 c2 hrl with ⟨hn, hc⟩ | ⟨hn, hc⟩
            · exact Or.inl ⟨by omega, by omega⟩
            · exact Or.inr ⟨by omega, by omega⟩

/-- Witness for C5: a runtime-error tick ends the loop with one
shutdown and exit 0; an isShuttingDown tick likewise; and the binary
classification applies to a concrete run. -/
theorem C5_shutdown_conversion_witness :
    runLoop 5 (initialLoopState 0 5) [faultTick ExcKind.runtimeError] =
        some ([], 1, 0) ∧
    runLoop 5 (initialLoopState 0 5) [stopTick] = some ([], 1, 0) :=
  ⟨C5_shutdown_conversion.2.1 5 (initialLoopState 0 5)
      (faultTick ExcKind.runtimeError) [] rfl rfl,
    C5_shutdown_conversion.1 5 (initialLoopState 0 5) stopTick [] rfl⟩

theorem drain_filter_nil (interval now : Int) (evs : List DrainEvent)
    (s : LoopState) (p : Effect → Bool)
    (hp : ∀ bs, p (Effect.writeOut bs) = false) :
    (drainLoop interval now s evs).2.filter p = [] := by
  refine List.filter_eq_nil_iff.mpr ?_
  intro a ha
  obtain ⟨bs, rfl⟩ := drainLoop_acts_writeOut interval now evs s a ha
  simp [hp]

/-! ## Claim C7: local-input handling -/

/-- C7: on a tick with ready local input, the single read's result
decides everything: a non-positive result terminates the loop with
exactly one shutdown (exit 0); a positive result of n bytes (n bounded
by the 16-KiB buffer) forwards exactly those bytes as one
terminal-data message and resets the keepalive deadline to
now + interval. -/
theorem C7_local_input (interval : Int) (s : LoopState) (i : TickInput)
    (rest : List TickInput) (hI : 0 < interval) (hsd : i.shuttingDown = false)
    (hexn : i.exn = ExcKind.noExn) (hin : i.inReady = true) :
    (i.readRc ≤ 0 → runLoop interval s (i :: rest) = some ([], 1, 0)) ∧
    (0 < i.readRc → i.readRc.toNat ≤ ET_BUF_SIZE →
      i.readData.length = i.readRc.toNat →
      (tick interval s i).2.2 = TickExit.cont ∧
      sendBufferActs (tick interval s i).2.1 = [Effect.sendBuffer i.readData] ∧
      (tick interval s i).1.keepaliveTime = i.now + interval) := by
  constructor
  · intro hrc
    refine runLoop_cons_brk interval s s i rest [] hsd ?_
    unfold tick
    rw [hexn, if_pos ⟨hin, hrc⟩]
  · intro hrc hcap hlen
    have hnotbrk : ¬(i.inReady = true ∧ i.readRc ≤ 0) := fun hc => by omega
    have hp1 : inputPhase interval i.now i.inReady i.readData s =
        ({ s with keepaliveTime := i.now + interval },
          [Effect.sendBuffer i.readData]) := by
      unfold inputPhase
      rw [hin]
      simp
    unfold tick
    rw [hexn]
    simp only [if_neg hnotbrk, hp1]
    by_cases hg : i.clientFd > 0 ∧ i.clientReady = true
    · simp only [if_pos hg]
      have hdtime : (drainLoop interval i.now
          { s with keepaliveTime := i.now + interval } i.drain).1.keepaliveTime =
          i.now + interval :=
        drainLoop_keepaliveTime interval i.now i.drain _ rfl
      have hnof : ¬ (drainLoop interval i.now
          { s with keepaliveTime := i.now + interval } i.drain).1.keepaliveTime <
          i.now := by omega
      refine ⟨?_, ?_, ?_⟩
      · trivial
      · simp only [sendBufferActs, List.filter_append]
        rw [drain_filter_nil interval i.now i.drain _ _ (fun bs => rfl)]
        rcases keepalivePhase_acts interval i.now i.clientFd
            (drainLoop interval i.now
              { s with keepaliveTime := i.now + interval } i.drain).1
          with h3 | h3 | h3 <;>
        rcases geometryPhase_acts (keepalivePhase interval i.now i.clientFd
            (drainLoop interval i.now
              { s with keepaliveTime := i.now + interval } i.drain).1).1 i.geom
          with h4 | h4 <;>
        simp [h3, h4, Effect.isSendBuffer]
      · rw [(geometryPhase_keepalive _ _).1,
          keepalivePhase_time_nofire interval i.now i.clientFd _ hnof, hdtime]
    · simp only [if_neg hg]
      refine ⟨?_, ?_, ?_⟩
      · trivial
      · simp only [sendBufferActs, List.filter_append]
        rcases keepalivePhase_acts interval i.now i.clientFd
            { s with keepaliveTime := i.now + interval } with h3 | h3 | h3 <;>
        rcases geometryPhase_acts (keepalivePhase interval i.now i.clientFd
            { s with keepaliveTime := i.now + interval }).1 i.geom
          with h4 | h4 <;>
        simp [h3, h4, Effect.isSendBuffer]
      · have hnof : ¬ ({ s with keepaliveTime := i.now + interval } :
            LoopState).keepaliveTime < i.now := by
          simp only []
          omega
        rw [(geometryPhase_keepalive _ _).1,
          keepalivePhase_time_nofire interval i.now i.clientFd _ hnof]

theorem keepalivePhase_fd_neg (interval now fd : Int) (s : LoopState)
    (h : fd < 0) :
    keepalivePhase interval now fd s =
      ({ s with waitingOnKeepalive := false }, []) := by
  have hng : ¬(fd > 0 ∧ s.keepaliveTime < now) := fun hc => by omega
  simp only [keepalivePhase, if_neg hng, if_pos h]

/-! ## Claim C8: invalid-descriptor tolerance -/

/-- C8: on a tick whose transport descriptor is invalid (negative, as
getSocketFd reports when the socket is gone), all transport-dependent
work is skipped without any error — no probe, no reconnect, no
local-output write — and the keepalive state is forced back to Idle;
and on any later tick with a valid descriptor and transport readiness
the drain resumes normally, e.g. an inbound terminal-data packet is
written to local output again. -/
theorem C8_invalid_descriptor (interval : Int) (s : LoopState) (i : TickInput)
    (hexn : i.exn = ExcKind.noExn) (hfd : i.clientFd < 0)
    (hread : ¬(i.inReady = true ∧ i.readRc ≤ 0)) :
    ((tick interval s i).2.2 = TickExit.cont ∧
      probeActs (tick interval s i).2.1 = [] ∧
      reconActs (tick interval s i).2.1 = [] ∧
      writeActs (tick interval s i).2.1 = [] ∧
      (tick interval s i).1.waitingOnKeepalive = false) ∧
    (∀ (s2 : LoopState) (j : TickInput) (payload : List Nat) (rcs : List Int),
      j.exn = ExcKind.noExn → j.inReady = false → 0 < j.clientFd →
      j.clientReady = true →
      j.drain =
        [DrainEvent.packet TerminalPacketHeader.terminalBuffer payload rcs] →
      writeActs (tick interval s2 j).2.1 =
        [Effect.writeOut (writeLoop payload rcs 0)]) := by
  constructor
  · have hng : ¬(i.clientFd > 0 ∧ i.clientReady = true) := fun hc => by omega
    unfold tick
    rw [hexn]
    simp only [if_neg hread, if_neg hng,
      keepalivePhase_fd_neg interval i.now i.clientFd _ hfd]
    refine ⟨?_, ?_, ?_, ?_, ?_⟩
    · trivial
    · rcases inputPhase_acts interval i.now i.inReady i.readData s with h1 | h1 <;>
      rcases geometryPhase_acts
          { (inputPhase interval i.now i.inReady i.readData s).1 with
            waitingOnKeepalive := false } i.geom with h4 | h4 <;>
      simp [probeActs, h1, h4, Effect.isSendKeepAlive]
    · rcases inputPhase_acts interval i.now i.inReady i.readData s with h1 | h1 <;>
      rcases geometryPhase_acts
          { (inputPhase interval i.now i.inReady i.readData s).1 with
            waitingOnKeepalive := false } i.geom with h4 | h4 <;>
      simp [reconActs, h1, h4, Effect.isReconnect]
    · rcases inputPhase_acts interval i.now i.inReady i.readData s with h1 | h1 <;>
      rcases geometryPhase_acts
          { (inputPhase interval i.now i.inReady i.readData s).1 with
            waitingOnKeepalive := false } i.geom with h4 | h4 <;>
      simp [writeActs, h1, h4, Effect.isWriteOut]
    · rw [(geometryPhase_keepalive _ _).2]
  · intro s2 j payload rcs hjexn hjin hjfd hjready hjdrain
    have hnotbrk : ¬(j.inReady = true ∧ j.readRc ≤ 0) := fun hc => by
      rw [hjin] at hc
      cases hc.1
    have hp1 : inputPhase interval j.now j.inReady j.readData s2 = (s2, []) := by
      simp [inputPhase, hjin]
    have hgj : j.clientFd > 0 ∧ j.clientReady = true := ⟨hjfd, hjready⟩
    unfold tick
    rw [hjexn]
    simp only [if_neg hnotbrk, if_pos hgj, hp1, hjdrain]
    simp only [drainLoop]
    rcases keepalivePhase_acts interval j.now j.clientFd
        { s2 with keepaliveTime := j.now + interval } with h3 | h3 | h3 <;>
    rcases geometryPhase_acts (keepalivePhase interval j.now j.clientFd
        { s2 with keepaliveTime := j.now + interval }).1 j.geom
      with h4 | h4 <;>
    simp [writeActs, h3, h4, Effect.isWriteOut]

/-- Witness for C8: with descriptor -1, an outstanding probe is
cleared and nothing transport-bound is emitted; afterwards a tick with
descriptor 1 and one inbound terminal-data packet writes it out. -/
theorem C8_invalid_descriptor_witness :
    probeActs (tick 5 ⟨3, true, ⟨0, 0, 0, 0⟩⟩
        (quietTick (-1) 10 ⟨0, 0, 0, 0⟩)).2.1 = [] ∧
    (tick 5 ⟨3, true, ⟨0, 0, 0, 0⟩⟩
        (quietTick (-1) 10 ⟨0, 0, 0, 0⟩)).1.waitingOnKeepalive = false ∧
    writeActs (tick 5 (initialLoopState 0 5) resumeTick).2.1 =
      [Effect.writeOut (writeLoop [104, 105] [2] 0)] :=
  ⟨(C8_invalid_descriptor 5 ⟨3, true, ⟨0, 0, 0, 0⟩⟩
      (quietTick (-1) 10 ⟨0, 0, 0, 0⟩) rfl (by decide) (by decide)).1.2.1,
    (C8_invalid_descriptor 5 ⟨3, true, ⟨0, 0, 0, 0⟩⟩
      (quietTick (-1) 10 ⟨0, 0, 0, 0⟩) rfl (by decide) (by decide)).1.2.2.2.2,
    (C8_invalid_descriptor 5 ⟨3, true, ⟨0, 0, 0, 0⟩⟩
      (quietTick (-1) 10 ⟨0, 0, 0, 0⟩) rfl (by decide) (by decide)).2
      (initialLoopState 0 5) resumeTick [104, 105] [2] rfl rfl (by decide) rfl rfl⟩

/-- Witness for C7: an EOF tick ends the run with one shutdown and
exit 0; a 3-byte read is forwarded as exactly one terminal-data
message and re-arms the deadline to now + interval. -/
theorem C7_local_input_witness :
    runLoop 5 (initialLoopState 0 5) [eofTick] = some ([], 1, 0) ∧
    sendBufferActs (tick 5 (initialLoopState 0 5) dataTick).2.1 =
      [Effect.sendBuffer [97, 98, 99]] ∧
    (tick 5 (initialLoopState 0 5) dataTick).1.keepaliveTime = 105 :=
  ⟨(C7_local_input 5 (initialLoopState 0 5) eofTick [] (by decide) rfl rfl rfl).1
      (by decide),
    ((C7_local_input 5 (initialLoopState 0 5) dataTick [] (by decide) rfl rfl
      rfl).2 (by decide) (by decide) (by decide)).2.1,
    ((C7_local_input 5 (initialLoopState 0 5) dataTick [] (by decide) rfl rfl
      rfl).2 (by decide) (by decide) (by decide)).2.2⟩

/-! ## Geometry lemmas -/

theorem TerminalInfo.eq_iff (g h : TerminalInfo) :
    g = h ↔ (g.row = h.row ∧ g.column = h.column ∧ g.width = h.width ∧
      g.height = h.height) := by
  cases g
  cases h
  simp

theorem geometryPhase_eq (s : LoopState) (g : TerminalInfo) :
    geometryPhase s g =
      if g = s.lastTerminalInfo then (s, [])
      else ({ s with lastTerminalInfo := g }, [Effect.sendInfo g]) := by
  unfold geometryPhase
  by_cases h : g = s.lastTerminalInfo
  · have hc : ¬(g.row ≠ s.lastTerminalInfo.row ∨
        g.column ≠ s.lastTerminalInfo.column ∨
        g.width ≠ s.lastTerminalInfo.width ∨
        g.height ≠ s.lastTerminalInfo.height) := by
      rw [h]
      simp
    rw [if_neg hc, if_pos h]
  · have hc : g.row ≠ s.lastTerminalInfo.row ∨
        g.column ≠ s.lastTerminalInfo.column ∨
        g.width ≠ s.lastTerminalInfo.width ∨
        g.height ≠ s.lastTerminalInfo.height := by
      by_contra hnc
      push_neg at hnc
      exact h ((TerminalInfo.eq_iff g s.lastTerminalInfo).mpr
        ⟨hnc.1, hnc.2.1, hnc.2.2.1, hnc.2.2.2⟩)
    rw [if_pos hc, if_neg h]

theorem geomRun_changes :
    ∀ (obs : List TerminalInfo) (s : LoopState),
      geomRun s obs = (changesFrom s.lastTerminalInfo obs).map Effect.sendInfo := by
  intro obs
  induction obs with
  | nil => intro s; rfl
  | cons g rest ih =>
    intro s
    by_cases h : g = s.lastTerminalInfo
    · simp only [geomRun, geometryPhase_eq, if_pos h, changesFrom]
      simpa [h] using ih s
    · simp only [geomRun, geometryPhase_eq, if_neg h, changesFrom]
      rw [ih { s with lastTerminalInfo := g }]
      simp [h]

theorem tick_sendInfo (interval : Int) (s : LoopState) (i : TickInput)
    (hexn : i.exn = ExcKind.noExn)
    (hread : ¬(i.inReady = true ∧ i.readRc ≤ 0)) :
    sendInfoActs (tick interval s i).2.1 =
      if i.geom = s.lastTerminalInfo then [] else [Effect.sendInfo i.geom] := by
  unfold tick
  rw [hexn]
  simp only [if_neg hread]
  by_cases hg : i.clientFd > 0 ∧ i.clientReady = true
  · simp only [if_pos hg]
    have hlast3 : (keepalivePhase interval i.now i.clientFd
        (drainLoop interval i.now
          (inputPhase interval i.now i.inReady i.readData s).1
          i.drain).1).1.lastTerminalInfo = s.lastTerminalInfo := by
      rw [keepalivePhase_lastInfo, drainLoop_lastInfo, inputPhase_lastInfo]
    simp only [sendInfoActs, List.filter_append]
    rw [drain_filter_nil interval i.now i.drain _ _ (fun bs => rfl)]
    rcases inputPhase_acts interval i.now i.inReady i.readData s with h1 | h1 <;>
    rcases keepalivePhase_acts interval i.now i.clientFd
        (drainLoop interval i.now
          (inputPhase interval i.now i.inReady i.readData s).1 i.drain).1
      with h3 | h3 | h3 <;>
    rw [geometryPhase_eq] <;>
    by_cases hgeom : i.geom = s.lastTerminalInfo <;>
    simp [h1, h3, hlast3, hgeom, Effect.isSendInfo]
  · simp only [if_neg hg]
    have hlast3 : (keepalivePhase interval i.now i.clientFd
        (inputPhase interval i.now i.inReady i.readData s).1).1.lastTerminalInfo =
        s.lastTerminalInfo := by
      rw [keepalivePhase_lastInfo, inputPhase_lastInfo]
    simp only [sendInfoActs, List.filter_append]
    rcases inputPhase_acts interval i.now i.inReady i.readData s with h1 | h1 <;>
    rcases keepalivePhase_acts interval i.now i.clientFd
        (inputPhase interval i.now i.inReady i.readData s).1 with h3 | h3 | h3 <;>
    rw [geometryPhase_eq] <;>
    by_cases hgeom : i.geom = s.lastTerminalInfo <;>
    simp [h1, h3, hlast3, hgeom, Effect.isSendInfo]

/-! ## Claim C2: geometry reporting -/

/-- C2 counterexample: the initial lastTerminalInfo is the all-zero
tuple, which is not distinct from a real observation — on a first tick
that observes the all-zero geometry, no geometry-change message is
transmitted, against the claim's exactly-one for the first real
observation. -/
theorem C2_geometry_counterexample :
    sendInfoActs (tick 5 (initialLoopState 0 5)
      (quietTick 1 1 { row := 0, column := 0, width := 0, height := 0 })).2.1 =
      [] := by decide

/-- C2 amended: on every tick (that neither throws nor breaks on local
input) a geometry-change message carrying the observed 4-tuple is
transmitted iff the tuple differs by full 4-field equality from the
last transmitted snapshot; over any sequence of observations the
transmissions are exactly the distinct 4-tuple transitions, starting
from the all-zero initial value — so the first real observation is
transmitted iff it is not itself the all-zero tuple. -/
theorem C2_geometry_reporting :
    (∀ (interval : Int) (s : LoopState) (i : TickInput),
        i.exn = ExcKind.noExn → ¬(i.inReady = true ∧ i.readRc ≤ 0) →
        sendInfoActs (tick interval s i).2.1 =
          if i.geom = s.lastTerminalInfo then []
          else [Effect.sendInfo i.geom]) ∧
    (∀ (obs : List TerminalInfo) (s : LoopState),
        geomRun s obs =
          (changesFrom s.lastTerminalInfo obs).map Effect.sendInfo) :=
  ⟨fun interval s i hexn hread => tick_sendInfo interval s i hexn hread,
    geomRun_changes⟩

/-- Witness for C2: a first distinct observation is transmitted once;
a repeated observation is not retransmitted and a changed one is. -/
theorem C2_geometry_reporting_witness :
    sendInfoActs (tick 5 (initialLoopState 0 5)
        (quietTick 1 1 { row := 24, column := 80, width := 640, height := 480 })).2.1 =
      [Effect.sendInfo { row := 24, column := 80, width := 640, height := 480 }] ∧
    geomRun (initialLoopState 0 5)
        [{ row := 24, column := 80, width := 640, height := 480 },
          { row := 24, column := 80, width := 640, height := 480 },
          { row := 25, column := 80, width := 640, height := 480 }] =
      [Effect.sendInfo { row := 24, column := 80, width := 640, height := 480 },
        Effect.sendInfo { row := 25, column := 80, width := 640, height := 480 }] := by
  constructor
  · rw [C2_geometry_reporting.1 5 (initialLoopState 0 5)
      (quietTick 1 1 { row := 24, column := 80, width := 640, height := 480 })
      rfl (by decide)]
    decide
  · rw [C2_geometry_reporting.2
      [{ row := 24, column := 80, width := 640, height := 480 },
        { row := 24, column := 80, width := 640, height := 480 },
        { row := 25, column := 80, width := 640, height := 480 }]
      (initialLoopState 0 5)]
    decide

/-! ## Keepalive lemmas -/

theorem keepalivePhase_fire_idle (interval now fd : Int) (s : LoopState)
    (hfd : 0 < fd) (ht : s.keepaliveTime < now)
    (hw : s.waitingOnKeepalive = false) :
    keepalivePhase interval now fd s =
      ({ s with keepaliveTime := now + interval, waitingOnKeepalive := true },
        [Effect.sendKeepAlive]) := by
  have h1 : fd > 0 ∧ s.keepaliveTime < now := ⟨hfd, ht⟩
  simp only [keepalivePhase, if_pos h1, hw,
    if_neg (show ¬ fd < 0 by omega)]
  simp

theorem keepalivePhase_fire_waiting (interval now fd : Int) (s : LoopState)
    (hfd : 0 < fd) (ht : s.keepaliveTime < now)
    (hw : s.waitingOnKeepalive = true) :
    keepalivePhase interval now fd s =
      ({ s with keepaliveTime := now + interval, waitingOnKeepalive := false },
        [Effect.reconnect]) := by
  have h1 : fd > 0 ∧ s.keepaliveTime < now := ⟨hfd, ht⟩
  simp only [keepalivePhase, if_pos h1, hw,
    if_neg (show ¬ fd < 0 by omega)]
  simp

theorem keepalivePhase_nofire (interval now fd : Int) (s : LoopState)
    (hfd : 0 < fd) (ht : ¬ s.keepaliveTime < now) :
    keepalivePhase interval now fd s = (s, []) := by
  have h1 : ¬(fd > 0 ∧ s.keepaliveTime < now) := fun hc => ht hc.2
  simp only [keepalivePhase, if_neg h1,
    if_neg (show ¬ fd < 0 by omega)]

theorem tick_quiet (interval fd t : Int) (g : TerminalInfo) (s : LoopState)
    (hfd : 0 < fd) (hg : s.lastTerminalInfo = g) :
    tick interval s (quietTick fd t g) =
      ((keepalivePhase interval t fd s).1,
        (keepalivePhase interval t fd s).2, TickExit.cont) := by
  unfold tick quietTick
  simp only [inputPhase, geometryPhase_eq, keepalivePhase_lastInfo]
  simp [hg]

theorem runLoop_cons_noop (interval : Int) (s : LoopState) (i : TickInput)
    (rest : List TickInput) (hsd : i.shuttingDown = false)
    (ht : tick interval s i = (s, [], TickExit.cont)) :
    runLoop interval s (i :: rest) = runLoop interval s rest := by
  cases h : runLoop interval s rest with
  | none => simp [runLoop, hsd, ht, h]
  | some x =>
    rcases x with ⟨as2, n2, c2⟩
    rw [runLoop_cons_cont interval s s i rest [] as2 n2 c2 hsd ht h]
    simp

theorem runLoop_quiet_stretch (interval fd : Int) (g : TerminalInfo) :
    ∀ (ts : List Int) (s : LoopState) (rest : List TickInput),
      0 < fd → s.lastTerminalInfo = g →
      (∀ t ∈ ts, ¬ s.keepaliveTime < t) →
      runLoop interval s ((ts.map fun t => quietTick fd t g) ++ rest) =
        runLoop interval s rest := by
  intro ts
  induction ts with
  | nil => intro s rest _ _ _; rfl
  | cons t ts ih =>
    intro s rest hfd hg hts
    have htick : tick interval s (quietTick fd t g) = (s, [], TickExit.cont) := by
      rw [tick_quiet interval fd t g s hfd hg,
        keepalivePhase_nofire interval t fd s hfd (hts t (by simp))]
    rw [List.map_cons, List.cons_append,
      runLoop_cons_noop interval s (quietTick fd t g) _ rfl htick,
      ih s rest hfd hg (fun u hu => hts u (by simp [hu]))]

/-! ## Claim C1: keepalive state machine -/

/-- C1 counterexample: the code fires on keepaliveTime < time(NULL)
(line 187), not on now >= deadline: on a tick with a valid descriptor,
state Idle and now equal to the deadline (10 >= 10), no probe is sent
and the state is unchanged. -/
theorem C1_keepalive_counterexample :
    (10 : Int) ≥ 10 ∧ (0 : Int) < 1 ∧
    tick 5 ⟨10, false, { row := 0, column := 0, width := 0, height := 0 }⟩
        (quietTick 1 10 { row := 0, column := 0, width := 0, height := 0 }) =
      (⟨10, false, { row := 0, column := 0, width := 0, height := 0 }⟩, [],
        TickExit.cont) := by decide

/-- C1 amended: the keepalive fires when now is strictly past the
deadline (deadline < now, not now >= deadline).  On such a tick with a
valid descriptor: with a probe outstanding, exactly one reconnect is
requested, the state returns to Idle and the deadline becomes
now + interval; with no probe outstanding, exactly one probe is sent,
the state becomes ProbeSent and the deadline becomes now + interval.
Consequently a traffic-free, ack-free run whose ticks stay at or
before the deadline, then strictly pass it, then stay at or before the
re-armed deadline, then strictly pass it, emits exactly one probe and
then exactly one reconnect. -/
theorem C1_keepalive_machine :
    (∀ (interval fd t : Int) (g : TerminalInfo) (s : LoopState),
        0 < fd → s.keepaliveTime < t → s.lastTerminalInfo = g →
        s.waitingOnKeepalive = true →
        tick interval s (quietTick fd t g) =
          ({ s with keepaliveTime := t + interval, waitingOnKeepalive := false },
            [Effect.reconnect], TickExit.cont)) ∧
    (∀ (interval fd t : Int) (g : TerminalInfo) (s : LoopState),
        0 < fd → s.keepaliveTime < t → s.lastTerminalInfo = g →
        s.waitingOnKeepalive = false →
        tick interval s (quietTick fd t g) =
          ({ s with keepaliveTime := t + interval, waitingOnKeepalive := true },
            [Effect.sendKeepAlive], TickExit.cont)) ∧
    (∀ (interval fd D p r : Int) (ts1 ts2 : List Int) (g : TerminalInfo)
        (s0 : LoopState),
        0 < fd → s0.keepaliveTime = D → s0.waitingOnKeepalive = false →
        s0.lastTerminalInfo = g →
        (∀ t ∈ ts1, ¬ D < t) → D < p →
        (∀ t ∈ ts2, ¬ p + interval < t) → p + interval < r →
        runLoop interval s0
            (((ts1 ++ p :: ts2 ++ [r]).map fun t => quietTick fd t g) ++
              [stopTick]) =
          some ([Effect.sendKeepAlive, Effect.reconnect], 1, 0)) := by
  refine ⟨?_, ?_, ?_⟩
  · intro interval fd t g s hfd ht hg hw
    rw [tick_quiet interval fd t g s hfd hg,
      keepalivePhase_fire_waiting interval t fd s hfd ht hw]
  · intro interval fd t g s hfd ht hg hw
    rw [tick_quiet interval fd t g s hfd hg,
      keepalivePhase_fire_idle interval t fd s hfd ht hw]
  · intro interval fd D p r ts1 ts2 g s0 hfd hD hw hg h1 hp h2 hr
    have hsplit :
        ((ts1 ++ p :: ts2 ++ [r]).map fun t => quietTick fd t g) ++ [stopTick] =
          (ts1.map fun t => quietTick fd t g) ++
            (quietTick fd p g ::
              ((ts2.map fun t => quietTick fd t g) ++
                (quietTick fd r g :: [stopTick]))) := by
      simp [List.map_append, List.append_assoc]
    rw [hsplit]
    rw [runLoop_quiet_stretch interval fd g ts1 s0 _ hfd hg
      (fun t ht => by rw [hD]; exact h1 t ht)]
    have htickp : tick interval s0 (quietTick fd p g) =
        ({ s0 with keepaliveTime := p + interval, waitingOnKeepalive := true },
          [Effect.sendKeepAlive], TickExit.cont) := by
      rw [tick_quiet interval fd p g s0 hfd hg,
        keepalivePhase_fire_idle interval p fd s0 hfd (by rw [hD]; exact hp) hw]
    have hs1g : ({ s0 with keepaliveTime := p + interval, waitingOnKeepalive := true } : LoopState).lastTerminalInfo = g := hg
    have htickr : tick interval
        ({ s0 with keepaliveTime := p + interval, waitingOnKeepalive := true })
        (quietTick fd r g) =
        ({ s0 with keepaliveTime := r + interval, waitingOnKeepalive := false },
          [Effect.reconnect], TickExit.cont) := by
      rw [tick_quiet interval fd r g _ hfd hs1g,
        keepalivePhase_fire_waiting interval r fd _ hfd hr rfl]
    have hstop : runLoop interval
        ({ s0 with keepaliveTime := r + interval, waitingOnKeepalive := false })
        [stopTick] = some ([], 1, 0) :=
      runLoop_stop interval _ stopTick [] rfl
    have hrstep : runLoop interval
        ({ s0 with keepaliveTime := p + interval, waitingOnKeepalive := true })
        (quietTick fd r g :: [stopTick]) = some ([Effect.reconnect], 1, 0) := by
      have h := runLoop_cons_cont interval _ _ (quietTick fd r g) [stopTick]
        [Effect.reconnect] [] 1 0 rfl htickr hstop
      simpa using h
    have hts2 : runLoop interval
        ({ s0 with keepaliveTime := p + interval, waitingOnKeepalive := true })
        ((ts2.map fun t => quietTick fd t g) ++ (quietTick fd r g :: [stopTick])) =
        some ([Effect.reconnect], 1, 0) := by
      rw [runLoop_quiet_stretch interval fd g ts2 _ _ hfd hs1g
        (fun u hu => h2 u hu)]
      exact hrstep
    have hpstep := runLoop_cons_cont interval s0 _ (quietTick fd p g) _
      [Effect.sendKeepAlive] [Effect.reconnect] 1 0 rfl htickp hts2
    simpa using hpstep

/-- Witness for C1: with interval 5 and a probe outstanding, the tick
at time 11 past deadline 10 issues exactly one reconnect and re-arms
the deadline to 16; with interval 1 from deadline 0, ticks at times 1
and 3 produce exactly one probe then exactly one reconnect. -/
theorem C1_keepalive_machine_witness :
    tick 5 ⟨10, true, { row := 0, column := 0, width := 0, height := 0 }⟩
        (quietTick 1 11 { row := 0, column := 0, width := 0, height := 0 }) =
      (⟨16, false, { row := 0, column := 0, width := 0, height := 0 }⟩,
        [Effect.reconnect], TickExit.cont) ∧
    runLoop 1 ⟨0, false, { row := 0, column := 0, width := 0, height := 0 }⟩
        [quietTick 1 1 { row := 0, column := 0, width := 0, height := 0 },
          quietTick 1 3 { row := 0, column := 0, width := 0, height := 0 },
          stopTick] =
      some ([Effect.sendKeepAlive, Effect.reconnect], 1, 0) :=
  ⟨C1_keepalive_machine.1 5 1 11 { row := 0, column := 0, width := 0, height := 0 }
      ⟨10, true, { row := 0, column := 0, width := 0, height := 0 }⟩
      (by decide) (by decide) rfl rfl,
    C1_keepalive_machine.2.2 1 1 0 1 3 [] []
      { row := 0, column := 0, width := 0, height := 0 }
      ⟨0, false, { row := 0, column := 0, width := 0, height := 0 }⟩
      (by decide) rfl rfl rfl (by simp) (by decide) (by simp) (by decide)⟩
